import Mathlib

/-
Verification of the `neptune-clone.py` workflow (aws-neptune-cloner).

The script is a one-shot orchestration over a remote control-plane client
("neptune"): it resolves the writer instance of a source cluster, reads its
network properties, requests a copy-on-write point-in-time clone, polls until
the clone cluster and a freshly created instance are available, and finally
deletes the clone cluster.

The shallow embedding below models the boto3/botocore collaborator as an
abstract environment `NeptuneEnv` mapping each request (and, for describe
operations, the index of the poll, since the remote state varies over time)
to a structured response.  Every function of the script becomes a Lean
function returning its result together with the list of collaborator calls
it issues, so that the call sequence of `main` is a provable object.
Exceptions (assert failures, IndexError from indexing an empty list, the
missing-writer Exception, botocore WaiterError) are modelled by `Except`
with the error type `Err`.
-/

namespace NeptuneClone

/-- A member record of a DB cluster: the fields `IsClusterWriter` and
`DBInstanceIdentifier` read by `get_cluster_writer_id`. -/
structure ClusterMember where
  isClusterWriter : Bool
  dbInstanceIdentifier : String
deriving DecidableEq

/-- A cluster record of a `DescribeDBClusters` response: `Status` and
`DBClusterMembers`. -/
structure DBCluster where
  status : String
  dbClusterMembers : List ClusterMember
deriving DecidableEq

/-- The `DescribeDBClusters` response: the `DBClusters` list. -/
structure DescribeDBClustersResponse where
  dbClusters : List DBCluster
deriving DecidableEq

/-- A VPC security-group association of an instance: `VpcSecurityGroupId`
and `Status`. -/
structure VpcSecurityGroupMembership where
  vpcSecurityGroupId : String
  status : String
deriving DecidableEq

/-- An instance record of a `DescribeDBInstances` response: the fields read
by `get_db_instance_props`. -/
structure DBInstance where
  dbInstanceStatus : String
  dbSubnetGroupName : String
  vpcSecurityGroups : List VpcSecurityGroupMembership
  dbSecurityGroups : List String
deriving DecidableEq

/-- The `DescribeDBInstances` response: the `DBInstances` list. -/
structure DescribeDBInstancesResponse where
  dbInstances : List DBInstance
deriving DecidableEq

/-- The `DBCluster` record of a `RestoreDBClusterToPointInTime` response:
`Status` and `DBClusterIdentifier`. -/
structure RestoredDBCluster where
  status : String
  dbClusterIdentifier : String
deriving DecidableEq

/-- The `DBInstance` record of a `CreateDBInstance` response:
`DBInstanceStatus` and `DBInstanceIdentifier`. -/
structure CreatedDBInstance where
  dbInstanceStatus : String
  dbInstanceIdentifier : String
deriving DecidableEq

/-- The keyword arguments of `restore_db_cluster_to_point_in_time` as issued
by `clone_cluster`. -/
structure RestoreParams where
  sourceDBClusterIdentifier : String
  dbClusterIdentifier : String
  restoreType : String
  useLatestRestorableTime : Bool
  dbSubnetGroupName : String
  vpcSecurityGroupIds : List String
deriving DecidableEq

/-- The keyword arguments of `create_db_instance` as issued by the script.
`dbInstanceTypeName` models the `DBInstanceClass` request field. -/
structure CreateParams where
  dbClusterIdentifier : String
  engine : String
  dbInstanceIdentifier : String
  dbInstanceTypeName : String
  dbSecurityGroups : List String
deriving DecidableEq

/-- One collaborator call issued to the neptune client, with the identifiers
or full parameter records it carries. -/
inductive Call where
  | describeDBClusters (dbClusterIdentifier : String)
  | describeDBInstances (dbInstanceIdentifier : String)
  | restoreDBClusterToPointInTime (params : RestoreParams)
  | createDBInstance (params : CreateParams)
  | deleteDBCluster (dbClusterIdentifier : String) (skipFinalSnapshot : Bool)
deriving DecidableEq

/-- A call is mutating when it creates or destroys remote resources
(restore, create instance, delete cluster); describes are read-only. -/
def isMutatingCall : Call → Bool
  | Call.restoreDBClusterToPointInTime _ => true
  | Call.createDBInstance _ => true
  | Call.deleteDBCluster _ _ => true
  | _ => false

/-- The Python exceptions the script can raise: `IndexError` from `[0]` on an
empty result list, `AssertionError` with its message, the
missing-writer `Exception` (recorded with the cluster id its message names),
and the botocore `WaiterError` on max-attempts exhaustion (and, for
completeness of the waiter model, on a failure-state acceptor, which the
waiters of this script never have). -/
inductive Err where
  | indexError
  | assertionError (msg : String)
  | missingClusterWriter (clusterId : String)
  | waiterTimeout
  | waiterFailure
deriving DecidableEq

/-- The abstract remote collaborator.  Describe operations take the
identifier and the index of the poll (the remote status can change between
successive polls of the same resource); mutating operations map their
parameter record to the response record the script reads. -/
structure NeptuneEnv where
  describeDBClusters : String → Nat → DescribeDBClustersResponse
  describeDBInstances : String → Nat → DescribeDBInstancesResponse
  restoreDBClusterToPointInTime : RestoreParams → RestoredDBCluster
  createDBInstance : CreateParams → CreatedDBInstance

/-- Function `gen_instance_id`: appends `-instance` to the given id. -/
def gen_instance_id (cluster_id : String) : String :=
  cluster_id ++ "-instance"

/-- Function `gen_cluster_id`: appends `-clone` to the given id. -/
def gen_cluster_id (cluster_id : String) : String :=
  cluster_id ++ "-clone"

/-- The member scan of `get_cluster_writer_id`: the `for` loop returning the
`DBInstanceIdentifier` of the first member whose `IsClusterWriter` is set. -/
def find_writer : List ClusterMember → Option String
  | [] => none
  | m :: rest =>
    if m.isClusterWriter then some m.dbInstanceIdentifier else find_writer rest

/-- The response processing of `get_cluster_writer_id`: index `DBClusters`
at 0 (IndexError when empty), assert that `Status` equals `available`, scan the
members for the writer, raise the missing-writer Exception when none. -/
def get_cluster_writer_id_resp (response : DescribeDBClustersResponse)
    (cluster_id : String) : Except Err String :=
  match response.dbClusters with
  | [] => Except.error Err.indexError
  | cluster :: _ =>
    if cluster.status = "available" then
      match find_writer cluster.dbClusterMembers with
      | some writerId => Except.ok writerId
      | none => Except.error (Err.missingClusterWriter cluster_id)
    else
      Except.error
        (Err.assertionError ("unexpected source cluster Status = " ++ cluster.status))

/-- Function `get_cluster_writer_id`: one `describe_db_clusters` call, then the pure
response processing. -/
def get_cluster_writer_id (neptune : NeptuneEnv) (cluster_id : String) :
    Except Err String × List Call :=
  (get_cluster_writer_id_resp (neptune.describeDBClusters cluster_id 0) cluster_id,
   [Call.describeDBClusters cluster_id])

/-- The response processing of `get_db_instance_props`: index `DBInstances`
at 0, assert that `DBInstanceStatus` equals `available`, and return the subnet group
name, the `VpcSecurityGroupId`s of the associations whose `Status` is
`active` (the list comprehension), and the raw `DBSecurityGroups`. -/
def get_db_instance_props_resp (response : DescribeDBInstancesResponse) :
    Except Err (String × List String × List String) :=
  match response.dbInstances with
  | [] => Except.error Err.indexError
  | inst :: _ =>
    if inst.dbInstanceStatus = "available" then
      Except.ok
        (inst.dbSubnetGroupName,
         inst.vpcSecurityGroups.filterMap
           (fun it => if it.status = "active" then some it.vpcSecurityGroupId else none),
         inst.dbSecurityGroups)
    else
      Except.error
        (Err.assertionError
          ("unexpected db instance Status = " ++ inst.dbInstanceStatus))

/-- Function `get_db_instance_props`: one `describe_db_instances` call, then the pure
response processing. -/
def get_db_instance_props (neptune : NeptuneEnv) (db_instance_id : String) :
    Except Err (String × List String × List String) × List Call :=
  (get_db_instance_props_resp (neptune.describeDBInstances db_instance_id 0),
   [Call.describeDBInstances db_instance_id])

/-- One acceptor of a botocore waiter model: its `state`, `matcher`,
jmespath `argument` and `expected` value. -/
structure Acceptor where
  state : String
  matcher : String
  argument : String
  expected : Bool
deriving DecidableEq

/-- The botocore `WaiterModel` dictionary built by `gen_available_waiter`:
version, waiter name, operation, delay, maxAttempts and the acceptor list. -/
structure WaiterModel where
  version : Nat
  waiterId : String
  operation : String
  delay : Nat
  maxAttempts : Nat
  acceptors : List Acceptor
deriving DecidableEq

/-- Function `gen_available_waiter`: the waiter model with a single success acceptor
whose jmespath argument is the given path compared against `available`
(the argument string is built exactly as in the source, with the literal
quoted by apostrophes written as `\x27`). -/
def gen_available_waiter (WAITER_ID operation : String) (delay maxAttempts : Nat)
    (path : String) : WaiterModel :=
  { version := 2
    waiterId := WAITER_ID
    operation := operation
    delay := delay
    maxAttempts := maxAttempts
    acceptors :=
      [{ state := "success"
         matcher := "path"
         argument := path ++ " == \x27available\x27"
         expected := true }] }

/-- Whether an acceptor matches an observed response, given whether the
jmespath comparison of the status path against `available` evaluated to
true.  For the `path` acceptors of `gen_available_waiter` the argument is
`<path> == \x27available\x27`, so the jmespath value is exactly that
boolean, and the acceptor matches when it equals `expected`. -/
def acceptorMatches (a : Acceptor) (avail : Bool) : Bool :=
  (a.matcher == "path") && (avail == a.expected)

/-- One acceptor-checking step of the botocore waiter: the state of the
first matching acceptor, if any. -/
def waiter_step (acceptors : List Acceptor) (avail : Bool) : Option String :=
  (acceptors.find? (fun a => acceptorMatches a avail)).map (fun a => a.state)

/-- Outcome of a waiter run: a success acceptor matched, a failure acceptor
matched, or the attempt budget was exhausted. -/
inductive WaitOutcome where
  | success
  | failure
  | timeout
deriving DecidableEq

/-- The botocore waiter loop: at each attempt it issues one describe call
(`availAt i` tells whether the status observed by poll `i` satisfied the
acceptor path comparison), stops with success or failure when an acceptor
in that state matches, and times out when `fuel` (initially `maxAttempts`)
polls have all been retries.  Returns the outcome and the number of polls
issued. -/
def waiter_wait_aux (acceptors : List Acceptor) (availAt : Nat → Bool) :
    Nat → Nat → WaitOutcome × Nat
  | _, 0 => (WaitOutcome.timeout, 0)
  | i, fuel + 1 =>
    let st := waiter_step acceptors (availAt i)
    if st = some "success" then (WaitOutcome.success, 1)
    else if st = some "failure" then (WaitOutcome.failure, 1)
    else
      let r := waiter_wait_aux acceptors availAt (i + 1) fuel
      (r.1, r.2 + 1)

/-- Run a waiter model from the first poll with its full attempt budget. -/
def waiter_wait (model : WaiterModel) (availAt : Nat → Bool) : WaitOutcome × Nat :=
  waiter_wait_aux model.acceptors availAt 0 model.maxAttempts

/-- The jmespath comparison `DBClusters[0].Status == \x27available\x27` on a
describe response: false when the list is empty (jmespath yields null). -/
def clusterStatusAvailable (response : DescribeDBClustersResponse) : Bool :=
  match response.dbClusters with
  | [] => false
  | c :: _ => c.status == "available"

/-- The jmespath comparison `DBInstances[0].DBInstanceStatus ==
\x27available\x27` on a describe response. -/
def instanceStatusAvailable (response : DescribeDBInstancesResponse) : Bool :=
  match response.dbInstances with
  | [] => false
  | inst :: _ => inst.dbInstanceStatus == "available"

/-- How `waiter.wait` surfaces an outcome to the caller: success returns
normally, a failure acceptor or exhaustion of the attempt budget raises a
`WaiterError` (modelled as the corresponding `Err`). -/
def wait_result (o : WaitOutcome) : Except Err Unit :=
  match o with
  | WaitOutcome.success => Except.ok ()
  | WaitOutcome.failure => Except.error Err.waiterFailure
  | WaitOutcome.timeout => Except.error Err.waiterTimeout

/-- Function `wait_cluster_available`: build the cluster waiter model and run it,
polling `describe_db_clusters` on the given id; the trace records one
describe call per poll. -/
def wait_cluster_available (neptune : NeptuneEnv) (cluster_id : String)
    (delay maxAttempts : Nat) : Except Err Unit × List Call :=
  let WAITER_MODEL := gen_available_waiter "neptune_cluster_available"
    "DescribeDBClusters" delay maxAttempts "DBClusters[0].Status"
  let r := waiter_wait WAITER_MODEL
    (fun i => clusterStatusAvailable (neptune.describeDBClusters cluster_id i))
  (wait_result r.1, List.replicate r.2 (Call.describeDBClusters cluster_id))

/-- Function `wait_db_instance_available`: build the instance waiter model and run
it, polling `describe_db_instances` on the given id. -/
def wait_db_instance_available (neptune : NeptuneEnv) (clone_instance_id : String)
    (delay maxAttempts : Nat) : Except Err Unit × List Call :=
  let WAITER_MODEL := gen_available_waiter "neptune_db_instance_available"
    "DescribeDBInstances" delay maxAttempts "DBInstances[0].DBInstanceStatus"
  let r := waiter_wait WAITER_MODEL
    (fun i => instanceStatusAvailable (neptune.describeDBInstances clone_instance_id i))
  (wait_result r.1, List.replicate r.2 (Call.describeDBInstances clone_instance_id))

/-- The keyword arguments `clone_cluster` passes to
`restore_db_cluster_to_point_in_time`. -/
def restore_params (cluster_id subnet_group_name : String)
    (vpc_security_group_ids : List String) : RestoreParams :=
  { sourceDBClusterIdentifier := cluster_id
    dbClusterIdentifier := gen_cluster_id cluster_id
    restoreType := "copy-on-write"
    useLatestRestorableTime := true
    dbSubnetGroupName := subnet_group_name
    vpcSecurityGroupIds := vpc_security_group_ids }

/-- Function `clone_cluster`: issue the restore request, assert the returned `Status`
is `creating`, and return the `DBClusterIdentifier` of the response. -/
def clone_cluster (neptune : NeptuneEnv) (cluster_id subnet_group_name : String)
    (vpc_security_group_ids : List String) : Except Err String × List Call :=
  let params := restore_params cluster_id subnet_group_name vpc_security_group_ids
  let response := neptune.restoreDBClusterToPointInTime params
  (if response.status = "creating" then Except.ok response.dbClusterIdentifier
   else Except.error
     (Err.assertionError ("unexpected clone cluster Status = " ++ response.status)),
   [Call.restoreDBClusterToPointInTime params])

/-- The keyword arguments `create_db_instance` passes to the client
(engine fixed to `neptune`, instance id generated by `gen_instance_id`). -/
def create_params (cluster_id db_instance_kind : String)
    (security_groups : List String) : CreateParams :=
  { dbClusterIdentifier := cluster_id
    engine := "neptune"
    dbInstanceIdentifier := gen_instance_id cluster_id
    dbInstanceTypeName := db_instance_kind
    dbSecurityGroups := security_groups }

/-- Function `create_db_instance`: issue the create request, assert the returned
`DBInstanceStatus` is `creating`, and return the `DBInstanceIdentifier` of
the response. -/
def create_db_instance (neptune : NeptuneEnv) (cluster_id db_instance_kind : String)
    (security_groups : List String) : Except Err String × List Call :=
  let params := create_params cluster_id db_instance_kind security_groups
  let response := neptune.createDBInstance params
  (if response.dbInstanceStatus = "creating" then
     Except.ok response.dbInstanceIdentifier
   else Except.error
     (Err.assertionError
       ("unexpected db instance Status = " ++ response.dbInstanceStatus)),
   [Call.createDBInstance params])

/-- The `DELAY` constant of `main` (seconds between polls). -/
def DELAY : Nat := 10

/-- The `MAX_ATTEMPTS` constant of `main` (poll budget of each waiter). -/
def MAX_ATTEMPTS : Nat := 200

/-- The `DB_INST_CLASS` constant of `main` (models the `DBInstanceClass`
request value `db.r5.4xlarge`). -/
def DB_INSTANCE_TYPE : String := "db.r5.4xlarge"

/-- Function `main`: the whole workflow.  Each step runs only when every earlier step
succeeded; an exception aborts the run, keeping the calls issued so far.
Returns the outcome and the full ordered trace of collaborator calls. -/
def main (neptune : NeptuneEnv) (cluster_id : String) : Except Err Unit × List Call :=
  let step1 := get_cluster_writer_id neptune cluster_id
  match step1.1 with
  | Except.error e => (Except.error e, step1.2)
  | Except.ok cluster_writer_id =>
    let step2 := get_db_instance_props neptune cluster_writer_id
    match step2.1 with
    | Except.error e => (Except.error e, step1.2 ++ step2.2)
    | Except.ok props =>
      let subnet_group_name := props.1
      let vpc_security_group_ids := props.2.1
      let security_groups := props.2.2
      let step3 := clone_cluster neptune cluster_id subnet_group_name vpc_security_group_ids
      match step3.1 with
      | Except.error e => (Except.error e, step1.2 ++ step2.2 ++ step3.2)
      | Except.ok clone_cluster_id =>
        let step4 := wait_cluster_available neptune clone_cluster_id DELAY MAX_ATTEMPTS
        match step4.1 with
        | Except.error e => (Except.error e, step1.2 ++ step2.2 ++ step3.2 ++ step4.2)
        | Except.ok _ =>
          let step5 := create_db_instance neptune clone_cluster_id DB_INSTANCE_TYPE security_groups
          match step5.1 with
          | Except.error e =>
            (Except.error e, step1.2 ++ step2.2 ++ step3.2 ++ step4.2 ++ step5.2)
          | Except.ok clone_instance_id =>
            let step6 := wait_db_instance_available neptune clone_instance_id DELAY MAX_ATTEMPTS
            match step6.1 with
            | Except.error e =>
              (Except.error e,
               step1.2 ++ step2.2 ++ step3.2 ++ step4.2 ++ step5.2 ++ step6.2)
            | Except.ok _ =>
              (Except.ok (),
               step1.2 ++ step2.2 ++ step3.2 ++ step4.2 ++ step5.2 ++ step6.2
                 ++ [Call.deleteDBCluster clone_cluster_id true])

/-- Concrete source cluster for worked examples: status `available`, one
member which is the writer `abc-writer`. -/
def sampleSourceCluster : DBCluster :=
  { status := "available"
    dbClusterMembers := [{ isClusterWriter := true, dbInstanceIdentifier := "abc-writer" }] }

/-- Concrete writer instance for worked examples: available, subnet group
`sn1`, one active and one inactive VPC security group, one classic group. -/
def sampleWriterInstance : DBInstance :=
  { dbInstanceStatus := "available"
    dbSubnetGroupName := "sn1"
    vpcSecurityGroups :=
      [{ vpcSecurityGroupId := "sg-1", status := "active" },
       { vpcSecurityGroupId := "sg-2", status := "inactive" }]
    dbSecurityGroups := ["dbsg-1"] }

/-- Happy-path environment: the source cluster `abc` is available with
writer `abc-writer`, every other cluster id (in particular the clone) is
immediately available, every instance describe returns an available
instance, and the mutating calls echo the requested identifiers with
status `creating`. -/
def sampleEnv : NeptuneEnv :=
  { describeDBClusters := fun id _ =>
      if id = "abc" then { dbClusters := [sampleSourceCluster] }
      else { dbClusters := [{ status := "available", dbClusterMembers := [] }] }
    describeDBInstances := fun _ _ => { dbInstances := [sampleWriterInstance] }
    restoreDBClusterToPointInTime := fun p =>
      { status := "creating", dbClusterIdentifier := p.dbClusterIdentifier }
    createDBInstance := fun p =>
      { dbInstanceStatus := "creating", dbInstanceIdentifier := p.dbInstanceIdentifier } }

/-- Like `sampleEnv` but the restore call comes back with status `failed`. -/
def sampleEnvRestoreFail : NeptuneEnv :=
  { sampleEnv with
    restoreDBClusterToPointInTime := fun p =>
      { status := "failed", dbClusterIdentifier := p.dbClusterIdentifier } }

/-- Like `sampleEnv` but the create-instance call comes back with status
`failed`. -/
def sampleEnvCreateFail : NeptuneEnv :=
  { sampleEnv with
    createDBInstance := fun p =>
      { dbInstanceStatus := "failed", dbInstanceIdentifier := p.dbInstanceIdentifier } }

/-- Like `sampleEnv` but every cluster other than the source stays in
status `creating` forever, so the clone wait can only time out. -/
def sampleEnvStuckCluster : NeptuneEnv :=
  { sampleEnv with
    describeDBClusters := fun id _ =>
      if id = "abc" then { dbClusters := [sampleSourceCluster] }
      else { dbClusters := [{ status := "creating", dbClusterMembers := [] }] } }

/-- Like `sampleEnv` but only the writer instance `abc-writer` is
available: every other instance (in particular the clone instance) stays
in status `creating` forever, so the instance wait of the workflow can
only time out. -/
def sampleEnvStuckCloneInstance : NeptuneEnv :=
  { sampleEnv with
    describeDBInstances := fun id _ =>
      if id = "abc-writer" then { dbInstances := [sampleWriterInstance] }
      else { dbInstances := [{ sampleWriterInstance with dbInstanceStatus := "creating" }] } }

/-- Like `sampleEnv` but every instance describe reports status `creating`
forever, so any instance wait can only time out. -/
def sampleEnvStuckInstance : NeptuneEnv :=
  { sampleEnv with
    describeDBInstances := fun _ _ =>
      { dbInstances := [{ sampleWriterInstance with dbInstanceStatus := "creating" }] } }

/-- Like `sampleEnv` but the source cluster describe reports status
`deleting`. -/
def sampleEnvBadCluster : NeptuneEnv :=
  { sampleEnv with
    describeDBClusters := fun _ _ =>
      { dbClusters := [{ status := "deleting", dbClusterMembers := [] }] } }

/-- Like `sampleEnv` but every instance describe reports status
`deleting`. -/
def sampleEnvBadInstance : NeptuneEnv :=
  { sampleEnv with
    describeDBInstances := fun _ _ =>
      { dbInstances := [{ sampleWriterInstance with dbInstanceStatus := "deleting" }] } }

/-- The single acceptor built by `gen_available_waiter` matches exactly the
responses whose status comparison came out true, and then in state
`success`. -/
theorem waiter_step_available (WAITER_ID operation : String) (delay maxAttempts : Nat)
    (path : String) (b : Bool) :
    waiter_step (gen_available_waiter WAITER_ID operation delay maxAttempts path).acceptors b =
      if b then some "success" else none := by
  cases b <;> rfl

/-- If no poll within the fuel budget observes an available status, the
waiter loop retries through the whole budget and times out. -/
theorem waiter_wait_aux_timeout (acceptors : List Acceptor) (availAt : Nat → Bool)
    (hstep : ∀ b, waiter_step acceptors b = if b then some "success" else none) :
    ∀ fuel start, (∀ k, k < fuel → availAt (start + k) = false) →
      waiter_wait_aux acceptors availAt start fuel = (WaitOutcome.timeout, fuel) := by
  intro fuel
  induction fuel with
  | zero => intro start _; rfl
  | succ n ih =>
    intro start h
    have h0 : availAt start = false := by simpa using h 0 (Nat.succ_pos n)
    have hrec : waiter_wait_aux acceptors availAt (start + 1) n = (WaitOutcome.timeout, n) := by
      apply ih
      intro k hk
      have heq : start + 1 + k = start + (k + 1) := by omega
      rw [heq]
      exact h (k + 1) (by omega)
    simp [waiter_wait_aux, hstep, h0, hrec]

/-- If poll `j` is the first within the fuel budget to observe an available
status, the waiter loop succeeds after exactly `j + 1` polls. -/
theorem waiter_wait_aux_success (acceptors : List Acceptor) (availAt : Nat → Bool)
    (hstep : ∀ b, waiter_step acceptors b = if b then some "success" else none) :
    ∀ j fuel start, j < fuel → availAt (start + j) = true →
      (∀ k, k < j → availAt (start + k) = false) →
      waiter_wait_aux acceptors availAt start fuel = (WaitOutcome.success, j + 1) := by
  intro j
  induction j with
  | zero =>
    intro fuel start hj h1 _
    cases fuel with
    | zero => omega
    | succ n =>
      have h0 : availAt start = true := by simpa using h1
      simp [waiter_wait_aux, hstep, h0]
  | succ j ih =>
    intro fuel start hj h1 h2
    cases fuel with
    | zero => omega
    | succ n =>
      have h0 : availAt start = false := h2 0 (Nat.succ_pos j)
      have hrec : waiter_wait_aux acceptors availAt (start + 1) n = (WaitOutcome.success, j + 1) := by
        apply ih n (start + 1) (by omega)
        · have heq : start + 1 + j = start + (j + 1) := by omega
          rw [heq]; exact h1
        · intro k hk
          have heq : start + 1 + k = start + (k + 1) := by omega
          rw [heq]; exact h2 (k + 1) (by omega)
      simp [waiter_wait_aux, hstep, h0, hrec]

/-- Unfolding equation for one iteration of the waiter loop. -/
theorem waiter_wait_aux_succ (acceptors : List Acceptor) (availAt : Nat → Bool)
    (i n : Nat) :
    waiter_wait_aux acceptors availAt i (n + 1) =
      if waiter_step acceptors (availAt i) = some "success" then (WaitOutcome.success, 1)
      else if waiter_step acceptors (availAt i) = some "failure" then (WaitOutcome.failure, 1)
      else ((waiter_wait_aux acceptors availAt (i + 1) n).1,
            (waiter_wait_aux acceptors availAt (i + 1) n).2 + 1) := rfl

/-- The waiter loop succeeds exactly when some poll within the fuel budget
observes an available status. -/
theorem waiter_wait_aux_success_iff (acceptors : List Acceptor) (availAt : Nat → Bool)
    (hstep : ∀ b, waiter_step acceptors b = if b then some "success" else none) :
    ∀ fuel start, (waiter_wait_aux acceptors availAt start fuel).1 = WaitOutcome.success ↔
      ∃ k, k < fuel ∧ availAt (start + k) = true := by
  intro fuel
  induction fuel with
  | zero =>
    intro start
    simp [waiter_wait_aux]
  | succ n ih =>
    intro start
    cases hav : availAt start with
    | true =>
      have h1 : waiter_wait_aux acceptors availAt start (n + 1) = (WaitOutcome.success, 1) := by
        rw [waiter_wait_aux_succ, hstep, hav]
        simp
      rw [h1]
      exact iff_of_true rfl ⟨0, Nat.succ_pos n, by simpa using hav⟩
    | false =>
      have h1 : waiter_wait_aux acceptors availAt start (n + 1) =
          ((waiter_wait_aux acceptors availAt (start + 1) n).1,
           (waiter_wait_aux acceptors availAt (start + 1) n).2 + 1) := by
        rw [waiter_wait_aux_succ, hstep, hav]
        simp
      rw [h1]
      dsimp only
      rw [ih (start + 1)]
      constructor
      · rintro ⟨k, hk, h⟩
        refine ⟨k + 1, by omega, ?_⟩
        have heq : start + (k + 1) = start + 1 + k := by omega
        rw [heq]; exact h
      · rintro ⟨k, hk, h⟩
        cases k with
        | zero => simp at h; rw [h] at hav; cases hav
        | succ k =>
          refine ⟨k, by omega, ?_⟩
          have heq : start + 1 + k = start + (k + 1) := by omega
          rw [heq]; exact h

/-- A waiter whose only matching acceptor state is `success` can never end
in the `failure` outcome. -/
theorem waiter_wait_aux_ne_failure (acceptors : List Acceptor) (availAt : Nat → Bool)
    (hstep : ∀ b, waiter_step acceptors b = if b then some "success" else none) :
    ∀ fuel start, (waiter_wait_aux acceptors availAt start fuel).1 ≠ WaitOutcome.failure := by
  intro fuel
  induction fuel with
  | zero => intro start; simp [waiter_wait_aux]
  | succ n ih =>
    intro start
    cases hav : availAt start with
    | true =>
      have h1 : waiter_wait_aux acceptors availAt start (n + 1) = (WaitOutcome.success, 1) := by
        rw [waiter_wait_aux_succ, hstep, hav]
        simp
      rw [h1]
      decide
    | false =>
      have h1 : waiter_wait_aux acceptors availAt start (n + 1) =
          ((waiter_wait_aux acceptors availAt (start + 1) n).1,
           (waiter_wait_aux acceptors availAt (start + 1) n).2 + 1) := by
        rw [waiter_wait_aux_succ, hstep, hav]
        simp
      rw [h1]
      exact ih (start + 1)

/-- The attempt budget stored in a generated waiter model is the
`maxAttempts` argument. -/
theorem gen_available_waiter_maxAttempts (WAITER_ID operation : String)
    (delay maxAttempts : Nat) (path : String) :
    (gen_available_waiter WAITER_ID operation delay maxAttempts path).maxAttempts =
      maxAttempts := rfl

/-- The delay stored in a generated waiter model is the `delay` argument. -/
theorem gen_available_waiter_delay (WAITER_ID operation : String)
    (delay maxAttempts : Nat) (path : String) :
    (gen_available_waiter WAITER_ID operation delay maxAttempts path).delay = delay := rfl

/-- If poll `j` is the first (within the budget) where the clone cluster is
available, the cluster wait returns success after exactly `j + 1` describe
calls. -/
theorem wait_cluster_available_success (neptune : NeptuneEnv) (cluster_id : String)
    (delay maxAttempts j : Nat) (hj : j < maxAttempts)
    (h1 : clusterStatusAvailable (neptune.describeDBClusters cluster_id j) = true)
    (h2 : ∀ k, k < j → clusterStatusAvailable (neptune.describeDBClusters cluster_id k) = false) :
    wait_cluster_available neptune cluster_id delay maxAttempts =
      (Except.ok (), List.replicate (j + 1) (Call.describeDBClusters cluster_id)) := by
  have hw := waiter_wait_aux_success
    (gen_available_waiter "neptune_cluster_available" "DescribeDBClusters" delay maxAttempts
      "DBClusters[0].Status").acceptors
    (fun i => clusterStatusAvailable (neptune.describeDBClusters cluster_id i))
    (fun b => waiter_step_available _ _ _ _ _ b)
    j maxAttempts 0 hj (by simpa using h1) (fun k hk => by simpa using h2 k hk)
  simp [wait_cluster_available, wait_result, waiter_wait, gen_available_waiter_maxAttempts, hw]

/-- If the cluster never reports available within the budget, the cluster
wait times out after exactly `maxAttempts` describe calls. -/
theorem wait_cluster_available_timeout (neptune : NeptuneEnv) (cluster_id : String)
    (delay maxAttempts : Nat)
    (h : ∀ k, k < maxAttempts →
      clusterStatusAvailable (neptune.describeDBClusters cluster_id k) = false) :
    wait_cluster_available neptune cluster_id delay maxAttempts =
      (Except.error Err.waiterTimeout,
       List.replicate maxAttempts (Call.describeDBClusters cluster_id)) := by
  have hw := waiter_wait_aux_timeout
    (gen_available_waiter "neptune_cluster_available" "DescribeDBClusters" delay maxAttempts
      "DBClusters[0].Status").acceptors
    (fun i => clusterStatusAvailable (neptune.describeDBClusters cluster_id i))
    (fun b => waiter_step_available _ _ _ _ _ b)
    maxAttempts 0 (fun k hk => by simpa using h k hk)
  simp [wait_cluster_available, wait_result, waiter_wait, gen_available_waiter_maxAttempts, hw]

/-- If poll `j` is the first (within the budget) where the instance is
available, the instance wait returns success after exactly `j + 1` describe
calls. -/
theorem wait_db_instance_available_success (neptune : NeptuneEnv) (instance_id : String)
    (delay maxAttempts j : Nat) (hj : j < maxAttempts)
    (h1 : instanceStatusAvailable (neptune.describeDBInstances instance_id j) = true)
    (h2 : ∀ k, k < j → instanceStatusAvailable (neptune.describeDBInstances instance_id k) = false) :
    wait_db_instance_available neptune instance_id delay maxAttempts =
      (Except.ok (), List.replicate (j + 1) (Call.describeDBInstances instance_id)) := by
  have hw := waiter_wait_aux_success
    (gen_available_waiter "neptune_db_instance_available" "DescribeDBInstances" delay maxAttempts
      "DBInstances[0].DBInstanceStatus").acceptors
    (fun i => instanceStatusAvailable (neptune.describeDBInstances instance_id i))
    (fun b => waiter_step_available _ _ _ _ _ b)
    j maxAttempts 0 hj (by simpa using h1) (fun k hk => by simpa using h2 k hk)
  simp [wait_db_instance_available, wait_result, waiter_wait, gen_available_waiter_maxAttempts, hw]

/-- If the instance never reports available within the budget, the instance
wait times out after exactly `maxAttempts` describe calls. -/
theorem wait_db_instance_available_timeout (neptune : NeptuneEnv) (instance_id : String)
    (delay maxAttempts : Nat)
    (h : ∀ k, k < maxAttempts →
      instanceStatusAvailable (neptune.describeDBInstances instance_id k) = false) :
    wait_db_instance_available neptune instance_id delay maxAttempts =
      (Except.error Err.waiterTimeout,
       List.replicate maxAttempts (Call.describeDBInstances instance_id)) := by
  have hw := waiter_wait_aux_timeout
    (gen_available_waiter "neptune_db_instance_available" "DescribeDBInstances" delay maxAttempts
      "DBInstances[0].DBInstanceStatus").acceptors
    (fun i => instanceStatusAvailable (neptune.describeDBInstances instance_id i))
    (fun b => waiter_step_available _ _ _ _ _ b)
    maxAttempts 0 (fun k hk => by simpa using h k hk)
  simp [wait_db_instance_available, wait_result, waiter_wait, gen_available_waiter_maxAttempts, hw]

/-- The wait returns normally exactly on the success outcome. -/
theorem wait_result_ok_iff (o : WaitOutcome) :
    wait_result o = Except.ok () ↔ o = WaitOutcome.success := by
  cases o <;> simp [wait_result]

/-- The wait raises the failure-acceptor error exactly on the failure
outcome. -/
theorem wait_result_failure_iff (o : WaitOutcome) :
    wait_result o = Except.error Err.waiterFailure ↔ o = WaitOutcome.failure := by
  cases o <;> simp [wait_result]

/-- The cluster wait returns normally exactly when some poll within the
budget observes the cluster available. -/
theorem wait_cluster_available_ok_iff (neptune : NeptuneEnv) (cluster_id : String)
    (delay maxAttempts : Nat) :
    (wait_cluster_available neptune cluster_id delay maxAttempts).1 = Except.ok () ↔
      ∃ k, k < maxAttempts ∧
        clusterStatusAvailable (neptune.describeDBClusters cluster_id k) = true := by
  have hiff := waiter_wait_aux_success_iff
    (gen_available_waiter "neptune_cluster_available" "DescribeDBClusters" delay maxAttempts
      "DBClusters[0].Status").acceptors
    (fun i => clusterStatusAvailable (neptune.describeDBClusters cluster_id i))
    (fun b => waiter_step_available _ _ _ _ _ b) maxAttempts 0
  unfold wait_cluster_available waiter_wait
  dsimp only [gen_available_waiter_maxAttempts]
  rw [wait_result_ok_iff]
  simpa using hiff

/-- The instance wait returns normally exactly when some poll within the
budget observes the instance available. -/
theorem wait_db_instance_available_ok_iff (neptune : NeptuneEnv) (instance_id : String)
    (delay maxAttempts : Nat) :
    (wait_db_instance_available neptune instance_id delay maxAttempts).1 = Except.ok () ↔
      ∃ k, k < maxAttempts ∧
        instanceStatusAvailable (neptune.describeDBInstances instance_id k) = true := by
  have hiff := waiter_wait_aux_success_iff
    (gen_available_waiter "neptune_db_instance_available" "DescribeDBInstances" delay maxAttempts
      "DBInstances[0].DBInstanceStatus").acceptors
    (fun i => instanceStatusAvailable (neptune.describeDBInstances instance_id i))
    (fun b => waiter_step_available _ _ _ _ _ b) maxAttempts 0
  unfold wait_db_instance_available waiter_wait
  dsimp only [gen_available_waiter_maxAttempts]
  rw [wait_result_ok_iff]
  simpa using hiff

/-- The cluster wait can never surface the failure-acceptor error: its
waiter model has no failure acceptor. -/
theorem wait_cluster_available_ne_failure (neptune : NeptuneEnv) (cluster_id : String)
    (delay maxAttempts : Nat) :
    (wait_cluster_available neptune cluster_id delay maxAttempts).1 ≠
      Except.error Err.waiterFailure := by
  have hnf := waiter_wait_aux_ne_failure
    (gen_available_waiter "neptune_cluster_available" "DescribeDBClusters" delay maxAttempts
      "DBClusters[0].Status").acceptors
    (fun i => clusterStatusAvailable (neptune.describeDBClusters cluster_id i))
    (fun b => waiter_step_available _ _ _ _ _ b) maxAttempts 0
  unfold wait_cluster_available waiter_wait
  dsimp only [gen_available_waiter_maxAttempts]
  rw [Ne, wait_result_failure_iff]
  exact hnf

/-- The instance wait can never surface the failure-acceptor error. -/
theorem wait_db_instance_available_ne_failure (neptune : NeptuneEnv) (instance_id : String)
    (delay maxAttempts : Nat) :
    (wait_db_instance_available neptune instance_id delay maxAttempts).1 ≠
      Except.error Err.waiterFailure := by
  have hnf := waiter_wait_aux_ne_failure
    (gen_available_waiter "neptune_db_instance_available" "DescribeDBInstances" delay maxAttempts
      "DBInstances[0].DBInstanceStatus").acceptors
    (fun i => instanceStatusAvailable (neptune.describeDBInstances instance_id i))
    (fun b => waiter_step_available _ _ _ _ _ b) maxAttempts 0
  unfold wait_db_instance_available waiter_wait
  dsimp only [gen_available_waiter_maxAttempts]
  rw [Ne, wait_result_failure_iff]
  exact hnf

/-- C1: for a source cluster whose describe result is available with a
writer member (so resolution yields `writer_id`), an available writer
instance (yielding subnet group, active VPC groups and classic groups), a
restore call answering `creating` and echoing the requested clone id, and
waits that first observe availability at polls `j1` and `j2` within the
budget, the whole workflow issues exactly:
describe-cluster(source), describe-instance(writer),
restore-to-point-in-time(source, source-clone), `j1 + 1` polls of
describe-cluster(source-clone), create-instance(source-clone,
source-clone-instance), `j2 + 1` polls of describe-instance, then
delete-cluster(source-clone, skip-final-snapshot) — and no other calls. -/
theorem C1_main_call_sequence (neptune : NeptuneEnv)
    (cluster_id writer_id subnet : String) (vpcIds sgs : List String) (j1 j2 : Nat)
    (h1 : get_cluster_writer_id_resp (neptune.describeDBClusters cluster_id 0) cluster_id =
      Except.ok writer_id)
    (h2 : get_db_instance_props_resp (neptune.describeDBInstances writer_id 0) =
      Except.ok (subnet, vpcIds, sgs))
    (h3 : neptune.restoreDBClusterToPointInTime (restore_params cluster_id subnet vpcIds) =
      { status := "creating", dbClusterIdentifier := gen_cluster_id cluster_id })
    (hj1 : j1 < MAX_ATTEMPTS)
    (h4 : clusterStatusAvailable
      (neptune.describeDBClusters (gen_cluster_id cluster_id) j1) = true)
    (h5 : ∀ k, k < j1 → clusterStatusAvailable
      (neptune.describeDBClusters (gen_cluster_id cluster_id) k) = false)
    (h6 : neptune.createDBInstance
      (create_params (gen_cluster_id cluster_id) DB_INSTANCE_TYPE sgs) =
      { dbInstanceStatus := "creating",
        dbInstanceIdentifier := gen_instance_id (gen_cluster_id cluster_id) })
    (hj2 : j2 < MAX_ATTEMPTS)
    (h7 : instanceStatusAvailable
      (neptune.describeDBInstances (gen_instance_id (gen_cluster_id cluster_id)) j2) = true)
    (h8 : ∀ k, k < j2 → instanceStatusAvailable
      (neptune.describeDBInstances (gen_instance_id (gen_cluster_id cluster_id)) k) = false) :
    main neptune cluster_id =
      (Except.ok (),
       Call.describeDBClusters cluster_id ::
         Call.describeDBInstances writer_id ::
           Call.restoreDBClusterToPointInTime (restore_params cluster_id subnet vpcIds) ::
             (List.replicate (j1 + 1) (Call.describeDBClusters (gen_cluster_id cluster_id)) ++
               Call.createDBInstance (create_params (gen_cluster_id cluster_id) DB_INSTANCE_TYPE sgs) ::
                 (List.replicate (j2 + 1)
                     (Call.describeDBInstances (gen_instance_id (gen_cluster_id cluster_id))) ++
                   [Call.deleteDBCluster (gen_cluster_id cluster_id) true]))) := by
  have hw1 := wait_cluster_available_success neptune (gen_cluster_id cluster_id)
    DELAY MAX_ATTEMPTS j1 hj1 h4 h5
  have hw2 := wait_db_instance_available_success neptune
    (gen_instance_id (gen_cluster_id cluster_id)) DELAY MAX_ATTEMPTS j2 hj2 h7 h8
  simp [main, get_cluster_writer_id, get_db_instance_props, clone_cluster,
    create_db_instance, h1, h2, h3, h6, hw1, hw2]

/-- Witness for C1 at the concrete happy-path environment: source `abc`,
writer `abc-writer`, clone available on the first poll. -/
theorem C1_main_call_sequence_witness :
    main sampleEnv "abc" =
      (Except.ok (),
       Call.describeDBClusters "abc" ::
         Call.describeDBInstances "abc-writer" ::
           Call.restoreDBClusterToPointInTime (restore_params "abc" "sn1" ["sg-1"]) ::
             (List.replicate 1 (Call.describeDBClusters (gen_cluster_id "abc")) ++
               Call.createDBInstance (create_params (gen_cluster_id "abc") DB_INSTANCE_TYPE ["dbsg-1"]) ::
                 (List.replicate 1
                     (Call.describeDBInstances (gen_instance_id (gen_cluster_id "abc"))) ++
                   [Call.deleteDBCluster (gen_cluster_id "abc") true]))) :=
  C1_main_call_sequence sampleEnv "abc" "abc-writer" "sn1" ["sg-1"] ["dbsg-1"] 0 0
    rfl rfl rfl (by decide) rfl (fun k hk => absurd hk (Nat.not_lt_zero k))
    rfl (by decide) rfl (fun k hk => absurd hk (Nat.not_lt_zero k))

/-- C2: the identifier generators are pure total functions: for every
cluster id `C`, `gen_cluster_id C` is `C ++ "-clone"`; for every string
`X`, `gen_instance_id X` is `X ++ "-instance"`; hence the clone instance
id is always the source id followed by `-clone-instance`. -/
theorem C2_id_generation (C X : String) :
    gen_cluster_id C = C ++ "-clone" ∧ gen_instance_id X = X ++ "-instance" ∧
      gen_instance_id (gen_cluster_id C) = C ++ "-clone-instance" := by
  refine ⟨rfl, rfl, ?_⟩
  show (C ++ "-clone") ++ "-instance" = C ++ "-clone-instance"
  rw [String.append_assoc]
  rfl

/-- C10: both describe processors index the result list at position 0
without a non-emptiness check: on an empty `DBClusters` (respectively
`DBInstances`) list they fail with the IndexError, not with the
descriptive assertion or domain errors. -/
theorem C10_empty_response_index_error (cluster_id : String) :
    get_cluster_writer_id_resp { dbClusters := [] } cluster_id =
        Except.error Err.indexError ∧
      get_db_instance_props_resp { dbInstances := [] } = Except.error Err.indexError :=
  ⟨rfl, rfl⟩

/-- The member scan returns the writer when every member before it is a
non-writer, wherever it sits in the list. -/
theorem find_writer_append (pre : List ClusterMember) (w : ClusterMember)
    (post : List ClusterMember) (hpre : ∀ m ∈ pre, m.isClusterWriter = false)
    (hw : w.isClusterWriter = true) :
    find_writer (pre ++ w :: post) = some w.dbInstanceIdentifier := by
  induction pre with
  | nil => simp [find_writer, hw]
  | cons m rest ih =>
    have hm : m.isClusterWriter = false := hpre m (List.mem_cons_self m rest)
    simp only [List.cons_append, find_writer, hm]
    simp only [Bool.false_eq_true, if_false]
    exact ih (fun x hx => hpre x (List.mem_cons_of_mem m hx))

/-- The member scan finds nothing when no member is flagged writer. -/
theorem find_writer_none (members : List ClusterMember)
    (h : ∀ m ∈ members, m.isClusterWriter = false) :
    find_writer members = none := by
  induction members with
  | nil => rfl
  | cons m rest ih =>
    simp only [find_writer, h m (List.mem_cons_self m rest)]
    simp only [Bool.false_eq_true, if_false]
    exact ih (fun x hx => h x (List.mem_cons_of_mem m hx))

/-- C3: on an available cluster, resolution returns the id of the unique
writer member regardless of its position (any decomposition with only
non-writers before the writer), and on an available cluster with no writer
member it fails with the domain error naming the cluster. -/
theorem C3_writer_resolution (cluster_id : String)
    (pre post members : List ClusterMember) (w : ClusterMember)
    (crest : List DBCluster) :
    (w.isClusterWriter = true → (∀ m ∈ pre, m.isClusterWriter = false) →
      get_cluster_writer_id_resp
        { dbClusters :=
            { status := "available", dbClusterMembers := pre ++ w :: post } :: crest }
        cluster_id = Except.ok w.dbInstanceIdentifier) ∧
    ((∀ m ∈ members, m.isClusterWriter = false) →
      get_cluster_writer_id_resp
        { dbClusters := { status := "available", dbClusterMembers := members } :: crest }
        cluster_id = Except.error (Err.missingClusterWriter cluster_id)) := by
  constructor
  · intro hw hpre
    simp [get_cluster_writer_id_resp, find_writer_append pre w post hpre hw]
  · intro h
    simp [get_cluster_writer_id_resp, find_writer_none members h]

/-- Witness for C3: the writer in the middle of a three-member list is
found; a one-member list with no writer raises the domain error. -/
theorem C3_writer_resolution_witness :
    get_cluster_writer_id_resp
        { dbClusters :=
            [{ status := "available",
               dbClusterMembers :=
                 [{ isClusterWriter := false, dbInstanceIdentifier := "r1" },
                  { isClusterWriter := true, dbInstanceIdentifier := "abc-writer" },
                  { isClusterWriter := false, dbInstanceIdentifier := "r2" }] }] } "abc" =
      Except.ok "abc-writer" ∧
    get_cluster_writer_id_resp
        { dbClusters :=
            [{ status := "available",
               dbClusterMembers :=
                 [{ isClusterWriter := false, dbInstanceIdentifier := "r1" }] }] } "abc" =
      Except.error (Err.missingClusterWriter "abc") :=
  ⟨(C3_writer_resolution "abc"
      [{ isClusterWriter := false, dbInstanceIdentifier := "r1" }]
      [{ isClusterWriter := false, dbInstanceIdentifier := "r2" }]
      []
      { isClusterWriter := true, dbInstanceIdentifier := "abc-writer" } []).1
      rfl (by decide),
   (C3_writer_resolution "abc" [] []
      [{ isClusterWriter := false, dbInstanceIdentifier := "r1" }]
      { isClusterWriter := true, dbInstanceIdentifier := "w" } []).2 (by decide)⟩

/-- C4: a describe result whose status is not `available` makes the
resolution step fail with the fatal assertion immediately: the run ends
with only the describe calls issued so far and no mutating call (restore,
create or delete) in the trace.  First conjunct: the source-cluster
precondition; second: the writer-instance precondition. -/
theorem C4_precondition_aborts (neptune : NeptuneEnv) (cluster_id writer_id : String)
    (cluster : DBCluster) (crest : List DBCluster)
    (inst : DBInstance) (irest : List DBInstance) :
    (neptune.describeDBClusters cluster_id 0 = { dbClusters := cluster :: crest } →
      cluster.status ≠ "available" →
      main neptune cluster_id =
        (Except.error
          (Err.assertionError ("unexpected source cluster Status = " ++ cluster.status)),
         [Call.describeDBClusters cluster_id]) ∧
      (main neptune cluster_id).2.all (fun c => !isMutatingCall c) = true) ∧
    (get_cluster_writer_id_resp (neptune.describeDBClusters cluster_id 0) cluster_id =
        Except.ok writer_id →
      neptune.describeDBInstances writer_id 0 = { dbInstances := inst :: irest } →
      inst.dbInstanceStatus ≠ "available" →
      main neptune cluster_id =
        (Except.error
          (Err.assertionError ("unexpected db instance Status = " ++ inst.dbInstanceStatus)),
         [Call.describeDBClusters cluster_id, Call.describeDBInstances writer_id]) ∧
      (main neptune cluster_id).2.all (fun c => !isMutatingCall c) = true) := by
  constructor
  · intro hdesc hstatus
    have hresp : get_cluster_writer_id_resp (neptune.describeDBClusters cluster_id 0)
        cluster_id =
        Except.error
          (Err.assertionError ("unexpected source cluster Status = " ++ cluster.status)) := by
      rw [hdesc]
      simp [get_cluster_writer_id_resp, hstatus]
    have hmain : main neptune cluster_id =
        (Except.error
          (Err.assertionError ("unexpected source cluster Status = " ++ cluster.status)),
         [Call.describeDBClusters cluster_id]) := by
      simp [main, get_cluster_writer_id, hresp]
    exact ⟨hmain, by rw [hmain]; simp [isMutatingCall]⟩
  · intro h1 hdesc hstatus
    have hresp : get_db_instance_props_resp (neptune.describeDBInstances writer_id 0) =
        Except.error
          (Err.assertionError ("unexpected db instance Status = " ++ inst.dbInstanceStatus)) := by
      rw [hdesc]
      simp [get_db_instance_props_resp, hstatus]
    have hmain : main neptune cluster_id =
        (Except.error
          (Err.assertionError ("unexpected db instance Status = " ++ inst.dbInstanceStatus)),
         [Call.describeDBClusters cluster_id, Call.describeDBInstances writer_id]) := by
      simp [main, get_cluster_writer_id, get_db_instance_props, h1, hresp]
    exact ⟨hmain, by rw [hmain]; simp [isMutatingCall]⟩

/-- Witness for C4: a source cluster reported as `deleting` aborts after
one describe; an available source whose writer instance is `deleting`
aborts after two describes.  No mutating call appears in either trace. -/
theorem C4_precondition_aborts_witness :
    (main sampleEnvBadCluster "abc" =
        (Except.error
          (Err.assertionError ("unexpected source cluster Status = " ++ "deleting")),
         [Call.describeDBClusters "abc"]) ∧
      (main sampleEnvBadCluster "abc").2.all (fun c => !isMutatingCall c) = true) ∧
    (main sampleEnvBadInstance "abc" =
        (Except.error
          (Err.assertionError ("unexpected db instance Status = " ++ "deleting")),
         [Call.describeDBClusters "abc", Call.describeDBInstances "abc-writer"]) ∧
      (main sampleEnvBadInstance "abc").2.all (fun c => !isMutatingCall c) = true) :=
  ⟨(C4_precondition_aborts sampleEnvBadCluster "abc" "w"
      { status := "deleting", dbClusterMembers := [] } []
      { dbInstanceStatus := "x", dbSubnetGroupName := "x",
        vpcSecurityGroups := [], dbSecurityGroups := [] } []).1 rfl (by decide),
   (C4_precondition_aborts sampleEnvBadInstance "abc" "abc-writer"
      { status := "x", dbClusterMembers := [] } []
      { sampleWriterInstance with dbInstanceStatus := "deleting" } []).2
      rfl rfl (by decide)⟩

/-- A Python list comprehension with a guard is a filter followed by a
map. -/
theorem filterMap_active_eq (l : List VpcSecurityGroupMembership) :
    l.filterMap
        (fun it => if it.status = "active" then some it.vpcSecurityGroupId else none) =
      (l.filter (fun it => it.status = "active")).map (fun it => it.vpcSecurityGroupId) := by
  induction l with
  | nil => rfl
  | cons x xs ih =>
    by_cases hx : x.status = "active" <;>
      simp [List.filterMap_cons, List.filter_cons, hx, ih]

/-- C5: on an available instance the props resolution returns the subnet
group name, exactly the VPC security-group ids whose association status is
`active` in their original order (a filter followed by a projection), and
the raw classic security groups unchanged. -/
theorem C5_instance_props (inst : DBInstance) (rest : List DBInstance)
    (h : inst.dbInstanceStatus = "available") :
    get_db_instance_props_resp { dbInstances := inst :: rest } =
      Except.ok
        (inst.dbSubnetGroupName,
         (inst.vpcSecurityGroups.filter (fun it => it.status = "active")).map
           (fun it => it.vpcSecurityGroupId),
         inst.dbSecurityGroups) := by
  simp [get_db_instance_props_resp, h, filterMap_active_eq]

/-- Witness for C5: the association list with `sg-1` active and `sg-2`
inactive yields exactly `["sg-1"]`, with subnet `sn1` and the classic
groups unchanged. -/
theorem C5_instance_props_witness :
    get_db_instance_props_resp { dbInstances := [sampleWriterInstance] } =
      Except.ok ("sn1", ["sg-1"], ["dbsg-1"]) :=
  C5_instance_props sampleWriterInstance [] rfl

/-- C6: `clone_cluster` issues exactly one restore request whose parameters
fix `UseLatestRestorableTime` to true, `RestoreType` to `copy-on-write`,
the target identifier to `gen_cluster_id` of the source, and carry the
supplied subnet group and VPC security-group ids; a returned status of
`creating` makes it return the response identifier, any other status the
fatal assertion.  `create_db_instance` likewise raises the fatal assertion
whenever the returned instance status is not `creating`. -/
theorem C6_mutating_contracts (neptune : NeptuneEnv)
    (cluster_id subnet db_instance_kind : String) (vpcIds sgs : List String) :
    (clone_cluster neptune cluster_id subnet vpcIds).2 =
        [Call.restoreDBClusterToPointInTime (restore_params cluster_id subnet vpcIds)] ∧
    restore_params cluster_id subnet vpcIds =
        { sourceDBClusterIdentifier := cluster_id
          dbClusterIdentifier := gen_cluster_id cluster_id
          restoreType := "copy-on-write"
          useLatestRestorableTime := true
          dbSubnetGroupName := subnet
          vpcSecurityGroupIds := vpcIds } ∧
    ((neptune.restoreDBClusterToPointInTime (restore_params cluster_id subnet vpcIds)).status =
        "creating" →
      (clone_cluster neptune cluster_id subnet vpcIds).1 =
        Except.ok (neptune.restoreDBClusterToPointInTime
          (restore_params cluster_id subnet vpcIds)).dbClusterIdentifier) ∧
    ((neptune.restoreDBClusterToPointInTime (restore_params cluster_id subnet vpcIds)).status ≠
        "creating" →
      (clone_cluster neptune cluster_id subnet vpcIds).1 =
        Except.error (Err.assertionError ("unexpected clone cluster Status = " ++
          (neptune.restoreDBClusterToPointInTime (restore_params cluster_id subnet vpcIds)).status))) ∧
    ((neptune.createDBInstance (create_params cluster_id db_instance_kind sgs)).dbInstanceStatus ≠
        "creating" →
      (create_db_instance neptune cluster_id db_instance_kind sgs).1 =
        Except.error (Err.assertionError ("unexpected db instance Status = " ++
          (neptune.createDBInstance (create_params cluster_id db_instance_kind sgs)).dbInstanceStatus))) := by
  refine ⟨rfl, rfl, ?_, ?_, ?_⟩
  · intro h
    simp [clone_cluster, h]
  · intro h
    simp [clone_cluster, h]
  · intro h
    simp [create_db_instance, h]

/-- Witness for C6: a `creating` restore response yields the echoed clone
id; `failed` responses from restore and create yield the fatal
assertions. -/
theorem C6_mutating_contracts_witness :
    (clone_cluster sampleEnv "abc" "sn1" ["sg-1"]).1 = Except.ok "abc-clone" ∧
    (clone_cluster sampleEnvRestoreFail "abc" "sn1" ["sg-1"]).1 =
      Except.error
        (Err.assertionError ("unexpected clone cluster Status = " ++ "failed")) ∧
    (create_db_instance sampleEnvCreateFail "abc-clone" DB_INSTANCE_TYPE ["dbsg-1"]).1 =
      Except.error
        (Err.assertionError ("unexpected db instance Status = " ++ "failed")) :=
  ⟨(C6_mutating_contracts sampleEnv "abc" "sn1" DB_INSTANCE_TYPE ["sg-1"] ["dbsg-1"]).2.2.1 rfl,
   (C6_mutating_contracts sampleEnvRestoreFail "abc" "sn1" DB_INSTANCE_TYPE
      ["sg-1"] ["dbsg-1"]).2.2.2.1 (by decide),
   (C6_mutating_contracts sampleEnvCreateFail "abc-clone" "sn1" DB_INSTANCE_TYPE
      ["sg-1"] ["dbsg-1"]).2.2.2.2 (by decide)⟩

/-- C7: once the restore request has been issued, a failure aborts the run
at that step with no compensating cleanup.  First conjunct: a restore
response with status other than `creating` ends the run right after the
restore call — no instance creation, no delete.  Second conjunct: when the
clone cluster was created and became available but instance creation
answers a status other than `creating`, the run ends right after the
create call, and in particular no delete-cluster call is ever issued: the
clone cluster is leaked. -/
theorem C7_no_rollback (neptune : NeptuneEnv)
    (cluster_id writer_id subnet : String) (vpcIds sgs : List String) (j1 : Nat) :
    ((get_cluster_writer_id_resp (neptune.describeDBClusters cluster_id 0) cluster_id =
        Except.ok writer_id) →
      (get_db_instance_props_resp (neptune.describeDBInstances writer_id 0) =
        Except.ok (subnet, vpcIds, sgs)) →
      (neptune.restoreDBClusterToPointInTime (restore_params cluster_id subnet vpcIds)).status ≠
        "creating" →
      main neptune cluster_id =
        (Except.error (Err.assertionError ("unexpected clone cluster Status = " ++
           (neptune.restoreDBClusterToPointInTime (restore_params cluster_id subnet vpcIds)).status)),
         [Call.describeDBClusters cluster_id, Call.describeDBInstances writer_id,
          Call.restoreDBClusterToPointInTime (restore_params cluster_id subnet vpcIds)])) ∧
    ((get_cluster_writer_id_resp (neptune.describeDBClusters cluster_id 0) cluster_id =
        Except.ok writer_id) →
      (get_db_instance_props_resp (neptune.describeDBInstances writer_id 0) =
        Except.ok (subnet, vpcIds, sgs)) →
      (neptune.restoreDBClusterToPointInTime (restore_params cluster_id subnet vpcIds) =
        { status := "creating", dbClusterIdentifier := gen_cluster_id cluster_id }) →
      j1 < MAX_ATTEMPTS →
      clusterStatusAvailable
        (neptune.describeDBClusters (gen_cluster_id cluster_id) j1) = true →
      (∀ k, k < j1 → clusterStatusAvailable
        (neptune.describeDBClusters (gen_cluster_id cluster_id) k) = false) →
      (neptune.createDBInstance
        (create_params (gen_cluster_id cluster_id) DB_INSTANCE_TYPE sgs)).dbInstanceStatus ≠
        "creating" →
      main neptune cluster_id =
        (Except.error (Err.assertionError ("unexpected db instance Status = " ++
           (neptune.createDBInstance
             (create_params (gen_cluster_id cluster_id) DB_INSTANCE_TYPE sgs)).dbInstanceStatus)),
         Call.describeDBClusters cluster_id ::
           Call.describeDBInstances writer_id ::
             Call.restoreDBClusterToPointInTime (restore_params cluster_id subnet vpcIds) ::
               (List.replicate (j1 + 1) (Call.describeDBClusters (gen_cluster_id cluster_id)) ++
                 [Call.createDBInstance
                   (create_params (gen_cluster_id cluster_id) DB_INSTANCE_TYPE sgs)])) ∧
      (∀ cid b, Call.deleteDBCluster cid b ∉ (main neptune cluster_id).2)) := by
  constructor
  · intro h1 h2 h3
    simp [main, get_cluster_writer_id, get_db_instance_props, clone_cluster, h1, h2, h3]
  · intro h1 h2 h3 hj1 h4 h5 hcreate
    have hw1 := wait_cluster_available_success neptune (gen_cluster_id cluster_id)
      DELAY MAX_ATTEMPTS j1 hj1 h4 h5
    have hmain : main neptune cluster_id =
        (Except.error (Err.assertionError ("unexpected db instance Status = " ++
           (neptune.createDBInstance
             (create_params (gen_cluster_id cluster_id) DB_INSTANCE_TYPE sgs)).dbInstanceStatus)),
         Call.describeDBClusters cluster_id ::
           Call.describeDBInstances writer_id ::
             Call.restoreDBClusterToPointInTime (restore_params cluster_id subnet vpcIds) ::
               (List.replicate (j1 + 1) (Call.describeDBClusters (gen_cluster_id cluster_id)) ++
                 [Call.createDBInstance
                   (create_params (gen_cluster_id cluster_id) DB_INSTANCE_TYPE sgs)])) := by
      simp [main, get_cluster_writer_id, get_db_instance_props, clone_cluster,
        create_db_instance, h1, h2, h3, hw1, hcreate]
    refine ⟨hmain, ?_⟩
    intro cid b
    rw [hmain]
    simp [List.mem_replicate]

/-- Witness for C7: with the restore answering `failed` the run stops after
three calls; with the create answering `failed` the run stops after the
create call and issues no delete. -/
theorem C7_no_rollback_witness :
    main sampleEnvRestoreFail "abc" =
      (Except.error
        (Err.assertionError ("unexpected clone cluster Status = " ++ "failed")),
       [Call.describeDBClusters "abc", Call.describeDBInstances "abc-writer",
        Call.restoreDBClusterToPointInTime (restore_params "abc" "sn1" ["sg-1"])]) ∧
    main sampleEnvCreateFail "abc" =
      (Except.error
        (Err.assertionError ("unexpected db instance Status = " ++ "failed")),
       Call.describeDBClusters "abc" ::
         Call.describeDBInstances "abc-writer" ::
           Call.restoreDBClusterToPointInTime (restore_params "abc" "sn1" ["sg-1"]) ::
             (List.replicate 1 (Call.describeDBClusters (gen_cluster_id "abc")) ++
               [Call.createDBInstance
                 (create_params (gen_cluster_id "abc") DB_INSTANCE_TYPE ["dbsg-1"])])) :=
  ⟨(C7_no_rollback sampleEnvRestoreFail "abc" "abc-writer" "sn1" ["sg-1"] ["dbsg-1"] 0).1
      rfl rfl (by decide),
   ((C7_no_rollback sampleEnvCreateFail "abc" "abc-writer" "sn1" ["sg-1"] ["dbsg-1"] 0).2
      rfl rfl rfl (by decide) rfl (fun k hk => absurd hk (Nat.not_lt_zero k))
      (by decide)).1⟩

/-- C8: both polling loops are configured with a fixed delay of 10 seconds
and a budget of 200 attempts (the `DELAY` and `MAX_ATTEMPTS` constants of
`main`, stored in the waiter models); each wait returns normally exactly
when some poll among the first 200 observes the status field equal to
`available`.  When no poll among 200 does, the run stops with the fatal
timeout error after exactly 200 describe calls of that wait, issuing no
further mutating call: for the cluster wait neither the create nor the
delete call is ever issued, and for the instance wait (reached after the
clone became available and the create succeeded) the delete call is never
issued. -/
theorem C8_polling_contract (neptune : NeptuneEnv)
    (cluster_id instance_id writer_id subnet : String) (vpcIds sgs : List String)
    (j1 : Nat) :
    DELAY = 10 ∧ MAX_ATTEMPTS = 200 ∧
    (∀ WAITER_ID operation path,
      (gen_available_waiter WAITER_ID operation DELAY MAX_ATTEMPTS path).delay = 10 ∧
      (gen_available_waiter WAITER_ID operation DELAY MAX_ATTEMPTS path).maxAttempts = 200) ∧
    ((wait_cluster_available neptune cluster_id DELAY MAX_ATTEMPTS).1 = Except.ok () ↔
      ∃ k, k < 200 ∧
        clusterStatusAvailable (neptune.describeDBClusters cluster_id k) = true) ∧
    ((wait_db_instance_available neptune instance_id DELAY MAX_ATTEMPTS).1 = Except.ok () ↔
      ∃ k, k < 200 ∧
        instanceStatusAvailable (neptune.describeDBInstances instance_id k) = true) ∧
    ((get_cluster_writer_id_resp (neptune.describeDBClusters cluster_id 0) cluster_id =
        Except.ok writer_id) →
      (get_db_instance_props_resp (neptune.describeDBInstances writer_id 0) =
        Except.ok (subnet, vpcIds, sgs)) →
      (neptune.restoreDBClusterToPointInTime (restore_params cluster_id subnet vpcIds) =
        { status := "creating", dbClusterIdentifier := gen_cluster_id cluster_id }) →
      (∀ k, k < 200 → clusterStatusAvailable
        (neptune.describeDBClusters (gen_cluster_id cluster_id) k) = false) →
      main neptune cluster_id =
        (Except.error Err.waiterTimeout,
         Call.describeDBClusters cluster_id ::
           Call.describeDBInstances writer_id ::
             Call.restoreDBClusterToPointInTime (restore_params cluster_id subnet vpcIds) ::
               List.replicate 200 (Call.describeDBClusters (gen_cluster_id cluster_id))) ∧
      (∀ p, Call.createDBInstance p ∉ (main neptune cluster_id).2) ∧
      (∀ cid b, Call.deleteDBCluster cid b ∉ (main neptune cluster_id).2)) ∧
    ((get_cluster_writer_id_resp (neptune.describeDBClusters cluster_id 0) cluster_id =
        Except.ok writer_id) →
      (get_db_instance_props_resp (neptune.describeDBInstances writer_id 0) =
        Except.ok (subnet, vpcIds, sgs)) →
      (neptune.restoreDBClusterToPointInTime (restore_params cluster_id subnet vpcIds) =
        { status := "creating", dbClusterIdentifier := gen_cluster_id cluster_id }) →
      j1 < MAX_ATTEMPTS →
      clusterStatusAvailable
        (neptune.describeDBClusters (gen_cluster_id cluster_id) j1) = true →
      (∀ k, k < j1 → clusterStatusAvailable
        (neptune.describeDBClusters (gen_cluster_id cluster_id) k) = false) →
      (neptune.createDBInstance
        (create_params (gen_cluster_id cluster_id) DB_INSTANCE_TYPE sgs) =
        { dbInstanceStatus := "creating",
          dbInstanceIdentifier := gen_instance_id (gen_cluster_id cluster_id) }) →
      (∀ k, k < 200 → instanceStatusAvailable
        (neptune.describeDBInstances (gen_instance_id (gen_cluster_id cluster_id)) k) = false) →
      main neptune cluster_id =
        (Except.error Err.waiterTimeout,
         Call.describeDBClusters cluster_id ::
           Call.describeDBInstances writer_id ::
             Call.restoreDBClusterToPointInTime (restore_params cluster_id subnet vpcIds) ::
               (List.replicate (j1 + 1) (Call.describeDBClusters (gen_cluster_id cluster_id)) ++
                 Call.createDBInstance
                     (create_params (gen_cluster_id cluster_id) DB_INSTANCE_TYPE sgs) ::
                   List.replicate 200
                     (Call.describeDBInstances (gen_instance_id (gen_cluster_id cluster_id))))) ∧
      (∀ cid b, Call.deleteDBCluster cid b ∉ (main neptune cluster_id).2)) := by
  refine ⟨rfl, rfl, fun _ _ _ => ⟨rfl, rfl⟩,
    wait_cluster_available_ok_iff neptune cluster_id DELAY MAX_ATTEMPTS,
    wait_db_instance_available_ok_iff neptune instance_id DELAY MAX_ATTEMPTS, ?_, ?_⟩
  · intro h1 h2 h3 hpoll
    have hw := wait_cluster_available_timeout neptune (gen_cluster_id cluster_id)
      DELAY MAX_ATTEMPTS (fun k hk => hpoll k hk)
    have hmain : main neptune cluster_id =
        (Except.error Err.waiterTimeout,
         Call.describeDBClusters cluster_id ::
           Call.describeDBInstances writer_id ::
             Call.restoreDBClusterToPointInTime (restore_params cluster_id subnet vpcIds) ::
               List.replicate MAX_ATTEMPTS (Call.describeDBClusters (gen_cluster_id cluster_id))) := by
      simp [main, get_cluster_writer_id, get_db_instance_props, clone_cluster,
        h1, h2, h3, hw]
    refine ⟨hmain, ?_, ?_⟩
    · intro p
      rw [hmain]
      simp [List.mem_replicate]
    · intro cid b
      rw [hmain]
      simp [List.mem_replicate]
  · intro h1 h2 h3 hj1 h4 h5 h6 hpoll
    have hw1 := wait_cluster_available_success neptune (gen_cluster_id cluster_id)
      DELAY MAX_ATTEMPTS j1 hj1 h4 h5
    have hw2 := wait_db_instance_available_timeout neptune
      (gen_instance_id (gen_cluster_id cluster_id)) DELAY MAX_ATTEMPTS
      (fun k hk => hpoll k hk)
    have hmain : main neptune cluster_id =
        (Except.error Err.waiterTimeout,
         Call.describeDBClusters cluster_id ::
           Call.describeDBInstances writer_id ::
             Call.restoreDBClusterToPointInTime (restore_params cluster_id subnet vpcIds) ::
               (List.replicate (j1 + 1) (Call.describeDBClusters (gen_cluster_id cluster_id)) ++
                 Call.createDBInstance
                     (create_params (gen_cluster_id cluster_id) DB_INSTANCE_TYPE sgs) ::
                   List.replicate MAX_ATTEMPTS
                     (Call.describeDBInstances (gen_instance_id (gen_cluster_id cluster_id))))) := by
      simp [main, get_cluster_writer_id, get_db_instance_props, clone_cluster,
        create_db_instance, h1, h2, h3, h6, hw1, hw2]
    refine ⟨hmain, ?_⟩
    intro cid b
    rw [hmain]
    simp [List.mem_replicate]

/-- Witness for C8: with the clone cluster stuck in `creating`, the run
times out after the restore call plus exactly 200 cluster polls and issues
no create and no delete; with only the clone instance stuck in `creating`,
the run times out after the create call plus exactly 200 instance polls
and never issues the delete. -/
theorem C8_polling_contract_witness :
    main sampleEnvStuckCluster "abc" =
      (Except.error Err.waiterTimeout,
       Call.describeDBClusters "abc" ::
         Call.describeDBInstances "abc-writer" ::
           Call.restoreDBClusterToPointInTime (restore_params "abc" "sn1" ["sg-1"]) ::
             List.replicate 200 (Call.describeDBClusters (gen_cluster_id "abc"))) ∧
    main sampleEnvStuckCloneInstance "abc" =
      (Except.error Err.waiterTimeout,
       Call.describeDBClusters "abc" ::
         Call.describeDBInstances "abc-writer" ::
           Call.restoreDBClusterToPointInTime (restore_params "abc" "sn1" ["sg-1"]) ::
             (List.replicate 1 (Call.describeDBClusters (gen_cluster_id "abc")) ++
               Call.createDBInstance
                   (create_params (gen_cluster_id "abc") DB_INSTANCE_TYPE ["dbsg-1"]) ::
                 List.replicate 200
                   (Call.describeDBInstances (gen_instance_id (gen_cluster_id "abc"))))) :=
  ⟨((C8_polling_contract sampleEnvStuckCluster "abc" "i" "abc-writer" "sn1"
      ["sg-1"] ["dbsg-1"] 0).2.2.2.2.2.1 rfl rfl rfl (fun _ _ => rfl)).1,
   ((C8_polling_contract sampleEnvStuckCloneInstance "abc" "i" "abc-writer" "sn1"
      ["sg-1"] ["dbsg-1"] 0).2.2.2.2.2.2 rfl rfl rfl (by decide) rfl
      (fun k hk => absurd hk (Nat.not_lt_zero k)) rfl (fun _ _ => rfl)).1⟩

/-- C9: the generated waiter model carries a single acceptor, in state
`success`, matching the status path against `available`, and no failure
acceptor; consequently neither wait can ever fail early, and under any
status sequence that stays non-available (for example a terminal `failed`
or `deleting` state) the wait keeps polling through the whole budget of
200 attempts and only then raises the timeout error. -/
theorem C9_no_failure_acceptor (WAITER_ID operation : String) (delay : Nat)
    (path : String) (neptune : NeptuneEnv) (cluster_id instance_id : String) :
    (gen_available_waiter WAITER_ID operation delay 200 path).acceptors =
      [{ state := "success", matcher := "path",
         argument := path ++ " == \x27available\x27", expected := true }] ∧
    (∀ a ∈ (gen_available_waiter WAITER_ID operation delay 200 path).acceptors,
      a.state ≠ "failure") ∧
    (wait_cluster_available neptune cluster_id delay 200).1 ≠
      Except.error Err.waiterFailure ∧
    (wait_db_instance_available neptune instance_id delay 200).1 ≠
      Except.error Err.waiterFailure ∧
    ((∀ k, k < 200 →
        clusterStatusAvailable (neptune.describeDBClusters cluster_id k) = false) →
      wait_cluster_available neptune cluster_id delay 200 =
        (Except.error Err.waiterTimeout,
         List.replicate 200 (Call.describeDBClusters cluster_id))) ∧
    ((∀ k, k < 200 →
        instanceStatusAvailable (neptune.describeDBInstances instance_id k) = false) →
      wait_db_instance_available neptune instance_id delay 200 =
        (Except.error Err.waiterTimeout,
         List.replicate 200 (Call.describeDBInstances instance_id))) := by
  refine ⟨rfl, ?_, wait_cluster_available_ne_failure neptune cluster_id delay 200,
    wait_db_instance_available_ne_failure neptune instance_id delay 200,
    wait_cluster_available_timeout neptune cluster_id delay 200,
    wait_db_instance_available_timeout neptune instance_id delay 200⟩
  intro a ha
  simp only [gen_available_waiter, List.mem_singleton] at ha
  subst ha
  show ("success" : String) ≠ "failure"
  decide

/-- Witness for C9: the concrete waiter model of the cluster wait, and the
full-budget timeouts on environments stuck in `creating`. -/
theorem C9_no_failure_acceptor_witness :
    (gen_available_waiter "w" "op" 10 200 "p").acceptors =
      [{ state := "success", matcher := "path",
         argument := "p" ++ " == \x27available\x27", expected := true }] ∧
    wait_cluster_available sampleEnvStuckCluster "abc-clone" 10 200 =
      (Except.error Err.waiterTimeout,
       List.replicate 200 (Call.describeDBClusters "abc-clone")) ∧
    wait_db_instance_available sampleEnvStuckInstance "abc-clone-instance" 10 200 =
      (Except.error Err.waiterTimeout,
       List.replicate 200 (Call.describeDBInstances "abc-clone-instance")) :=
  ⟨(C9_no_failure_acceptor "w" "op" 10 "p" sampleEnvStuckCluster "abc-clone" "i").1,
   (C9_no_failure_acceptor "w" "op" 10 "p" sampleEnvStuckCluster "abc-clone"
      "i").2.2.2.2.1 (fun _ _ => rfl),
   (C9_no_failure_acceptor "w" "op" 10 "p" sampleEnvStuckInstance "abc-clone"
      "abc-clone-instance").2.2.2.2.2 (fun _ _ => rfl)⟩

end NeptuneClone
